import Mathlib

/-!
Shallow embedding of the Budget Period Ledger of the AutomatedBudget
repository, together with proofs of the spec's claims about it.

Sources embedded here:
  * `src/types/Transaction.ts`, `src/types/Category.ts`,
    `src/types/BudgetPeriod.ts`, `src/types/User.ts`, `src/types/Account.ts`
  * `src/utils/deduplication.ts`
  * `src/utils/dateUtils.ts`
  * `src/storage/UserStorage.ts` (UserStorage, CategoryStorage, PeriodStorage)
  * `src/storage/AccountStorage.ts`
  * `app/api/setup/route.ts`, `app/api/period/active/route.ts`

JavaScript numbers that carry money amounts are modelled as rationals
(all arithmetic performed on them in the repository is exact on the
decimal values used); ISO dates are modelled as days since the Unix
epoch with explicit civil-calendar conversions mirroring the ECMAScript
`Date(year, month, day)` normalization (which rolls out-of-range
components over rather than clamping).  The remote Google Drive store
is modelled as an in-memory document map; the `TODO` placeholder bodies
of `AccountStorage.listAllAccounts` and `PeriodStorage.listAllPeriods`
are embedded exactly as written (returning empty collections), since
those bodies decide several claims.
-/

namespace AutomatedBudget

/-! ## Data model (`src/types/*.ts`) -/

/-- Model of `Transaction` from `src/types/Transaction.ts`. -/
structure Transaction where
  transaction_id : String
  external_id : String
  account_id : String
  user_id : String
  period_id : String
  date : String
  amount : ℚ
  merchant_name : String
  description : String
  category_id : String
  original_category : Option String
  is_manual_override : Bool
  created_at : String
  updated_at : String
  deriving Repr, DecidableEq

/-- Model of `User` from `src/types/User.ts`. -/
structure User where
  user_id : String
  created_at : String
  deriving Repr, DecidableEq

/-- Model of `Account` from `src/types/Account.ts`. -/
structure Account where
  account_id : String
  user_id : String
  bank_name : String
  account_name : String
  currency : String
  created_at : String
  deriving Repr, DecidableEq

/-- Model of `Category` from `src/types/Category.ts`. -/
structure Category where
  category_id : String
  user_id : String
  name : String
  monthly_limit : ℚ
  is_default : Bool
  created_at : String
  archived_at : Option String
  deriving Repr, DecidableEq

/-- Model of `CategoriesCollection` from `src/types/Category.ts`. -/
structure CategoriesCollection where
  categories : List Category
  deriving Repr, DecidableEq

/-- Model of `PeriodType` from `src/types/BudgetPeriod.ts`. -/
inductive PeriodType where
  | FIXED_DATE
  | INCOME_ANCHORED
  deriving Repr, DecidableEq

/-- Model of `BudgetPeriod` from `src/types/BudgetPeriod.ts`. -/
structure BudgetPeriod where
  period_id : String
  user_id : String
  account_id : String
  start_date : String
  end_date : String
  starting_balance : ℚ
  period_type : PeriodType
  anchor_date : String
  created_at : String
  deriving Repr, DecidableEq

/-- Model of `PeriodData` from `src/types/Transaction.ts`: the unit of persistence,
one period's metadata together with its transactions. -/
structure PeriodData where
  period : BudgetPeriod
  transactions : List Transaction
  deriving Repr, DecidableEq

/-! ## De-duplication (`src/utils/deduplication.ts`) -/

/-- Model of `buildExternalIdSet`: the set of `external_id`s of the existing
transactions, modelled as the list of ids (JS `Set.has` becomes list
membership). -/
def buildExternalIdSet (existingTransactions : List Transaction) : List String :=
  existingTransactions.map (·.external_id)

/-- Model of `filterDuplicates(newTransactions, existingTransactions)`: keep only the
incoming transactions whose `external_id` is not already present. -/
def filterDuplicates (newTransactions existingTransactions : List Transaction) :
    List Transaction :=
  let existingIds := buildExternalIdSet existingTransactions
  newTransactions.filter (fun tx => !(existingIds.contains tx.external_id))

/-- Model of `mergeTransactions(existingTransactions, newTransactions)`:
`[...existing, ...uniqueNew]`. -/
def mergeTransactions (existingTransactions newTransactions : List Transaction) :
    List Transaction :=
  let uniqueNew := filterDuplicates newTransactions existingTransactions
  existingTransactions ++ uniqueNew

/-- The duplicate-collecting loop of `validateNoDuplicates`: ids that occur
after having been seen already, first occurrence order, no repeats. -/
def findDuplicateIds (externalIds : List String) : List String :=
  (externalIds.foldl
    (fun (acc : List String × List String) id =>
      let (duplicates, seen) := acc
      let duplicates :=
        if seen.contains id && !(duplicates.contains id)
        then duplicates ++ [id] else duplicates
      (duplicates, seen ++ [id]))
    ([], [])).1

/-- Model of `validateNoDuplicates`: throws (here: returns `.error`) when the
transactions' `external_id`s are not pairwise distinct.  The JS code
compares `externalIds.length` with `new Set(externalIds).size`; the set
size is the number of distinct ids, i.e. `externalIds.dedup.length`. -/
def validateNoDuplicates (transactions : List Transaction) : Except String Unit :=
  let externalIds := transactions.map (·.external_id)
  if externalIds.length = externalIds.dedup.length then
    .ok ()
  else
    .error ("Duplicate external_ids found in transactions: " ++
      String.intercalate ", " (findDuplicateIds externalIds))

/-! ## Dates (`src/utils/dateUtils.ts`)

An ECMAScript `Date` holding a midnight timestamp is modelled as its
number of days since 1970-01-01 (an `Int`).  `new Date(year, month, day)`
normalizes an out-of-range 0-based `month` into the adjacent years and an
out-of-range `day` into the adjacent months (rollover, not clamping); the
conversions between day numbers and proleptic-Gregorian civil triples
follow the standard era-based algorithms.  The repository formats dates
with `toISOString()` and builds them with the `Date(y, m, d)` constructor;
the embedding assumes a UTC runtime, under which the two agree. -/

/-- Gregorian leap-year rule. -/
def isLeapYear (y : Int) : Bool :=
  (y % 4 == 0 && y % 100 != 0) || y % 400 == 0

/-- Number of days of 1-based month `m` of year `y`. -/
def daysInMonth (y m : Int) : Int :=
  if m = 2 then (if isLeapYear y then 29 else 28)
  else if m = 4 ∨ m = 6 ∨ m = 9 ∨ m = 11 then 30 else 31

/-- Days of the era (a 400-year Gregorian cycle starting on a March 1)
that precede year-of-era `yoe`. -/
def dcount (yoe : Int) : Int := 365 * yoe + yoe / 4 - yoe / 100

/-- Length in days of the shifted (March-starting) year `yoe` of an era. -/
def yearLen (yoe : Int) : Int :=
  (if yoe = 399 then 146097 else dcount (yoe + 1)) - dcount yoe

/-- Day-of-shifted-year of a 1-based civil month/day. -/
def doyOf (m d : Int) : Int :=
  (153 * (if m > 2 then m - 3 else m + 9) + 2) / 5 + d - 1

/-- Days since 1970-01-01 of the civil date `(y, m, d)` (1-based month).
Affine in `d`, so out-of-range days roll into the adjacent months exactly
as the ECMAScript `Date` constructor does. -/
def daysFromCivil (y m d : Int) : Int :=
  let y' := if m ≤ 2 then y - 1 else y
  let era := y' / 400
  let yoe := y' - era * 400
  era * 146097 + dcount yoe + doyOf m d - 719468

/-- Year-of-era containing day-of-era `doe`: the estimate `doe / 365`
(capped at 399) overshoots by at most one and is corrected downward. -/
def yoeOfDoe (doe : Int) : Int :=
  let y0 := min (doe / 365) 399
  if doe < dcount y0 then y0 - 1 else y0

/-- Civil month and day of a day-of-shifted-year, with the civil year
adjusted upward for January and February. -/
def monthDayFromDoy (y doy : Int) : Int × Int × Int :=
  let mp := (5 * doy + 2) / 153
  let d := doy - (153 * mp + 2) / 5 + 1
  let m := if mp < 10 then mp + 3 else mp - 9
  (if m ≤ 2 then y + 1 else y, m, d)

/-- Civil date `(y, m, d)` (1-based month) of a count of days since
1970-01-01. -/
def civilFromDays (z : Int) : Int × Int × Int :=
  let z' := z + 719468
  let era := z' / 146097
  let doe := z' - era * 146097
  let yoe := yoeOfDoe doe
  let doy := doe - dcount yoe
  monthDayFromDoy (era * 400 + yoe) doy

/-- Model of `new Date(year, month, day)` with a 0-based, possibly out-of-range
`month` and a possibly out-of-range `day`: ECMAScript normalization. -/
def jsMakeDate (year month day : Int) : Int :=
  daysFromCivil (year + month / 12) (month % 12 + 1) day

/-- Model of `Date.prototype.getFullYear()`. -/
def getFullYear (date : Int) : Int := (civilFromDays date).1

/-- Model of `Date.prototype.getMonth()` (0-based month). -/
def getMonth (date : Int) : Int := (civilFromDays date).2.1 - 1

/-- Model of `Date.prototype.getDate()` (1-based day of month). -/
def getDate (date : Int) : Int := (civilFromDays date).2.2

/-- Two-digit zero padding of a component of an ISO date. -/
def pad2 (n : Int) : String :=
  if n < 10 then "0" ++ toString n else toString n

/-- Four-digit zero padding of the year of an ISO date. -/
def pad4 (n : Int) : String :=
  if n < 10 then "000" ++ toString n
  else if n < 100 then "00" ++ toString n
  else if n < 1000 then "0" ++ toString n
  else toString n

/-- The ISO 8601 rendering `YYYY-MM-DD` of a civil triple. -/
def isoDateString (y m d : Int) : String :=
  pad4 y ++ "-" ++ pad2 m ++ "-" ++ pad2 d

/-- Model of `formatDate`: `date.toISOString().split('T')[0]`. -/
def formatDate (date : Int) : String :=
  let c := civilFromDays date
  isoDateString c.1 c.2.1 c.2.2

/-- Splitting a character list at dashes (structural recursion, so that
concrete dates evaluate inside proofs). -/
def splitDashChars : List Char → List Char → List (List Char)
  | [], current => [current.reverse]
  | c :: rest, current =>
    if c = '-' then current.reverse :: splitDashChars rest []
    else splitDashChars rest (c :: current)

/-- Decimal value of a digit list. -/
def digitsToNat : List Char → Nat → Nat
  | [], acc => acc
  | c :: rest, acc => digitsToNat rest (acc * 10 + (c.toNat - '0'.toNat))

/-- Model of `parseDate`: `new Date("YYYY-MM-DD")` (UTC midnight of the civil date). -/
def parseDate (dateString : String) : Int :=
  match (splitDashChars dateString.data []).map
      (fun component => ((digitsToNat component 0 : Nat) : Int)) with
  | [y, m, d] => daysFromCivil y m d
  | _ => 0

/-- Model of `isDateInPeriod`: inclusive start, exclusive end. -/
def isDateInPeriod (transactionDate periodStart periodEnd : String) : Bool :=
  let txDate := parseDate transactionDate
  let startD := parseDate periodStart
  let endD := parseDate periodEnd
  startD ≤ txDate && txDate < endD

/-- The `{ start_date, end_date }` object returned by `calculatePeriodDates`. -/
structure PeriodDates where
  start_date : String
  end_date : String
  deriving Repr, DecidableEq

/-- Model of `calculateFixedDatePeriod` from `src/utils/dateUtils.ts`. -/
def calculateFixedDatePeriod (currentDate anchorDate : Int) : PeriodDates :=
  let dayOfMonth := getDate anchorDate
  let year := getFullYear currentDate
  let month := getMonth currentDate
  let currentDay := getDate currentDate
  if currentDay ≥ dayOfMonth then
    { start_date := formatDate (jsMakeDate year month dayOfMonth),
      end_date := formatDate (jsMakeDate year (month + 1) dayOfMonth) }
  else
    { start_date := formatDate (jsMakeDate year (month - 1) dayOfMonth),
      end_date := formatDate (jsMakeDate year month dayOfMonth) }

/-- Model of `calculateIncomeAnchoredPeriod` from `src/utils/dateUtils.ts`.
`currentTime >= anchorTime` compares the millisecond timestamps; for
midnight dates this is the day-number comparison. -/
def calculateIncomeAnchoredPeriod (currentDate anchorDate : Int) : PeriodDates :=
  let dayOfMonth := getDate anchorDate
  if currentDate ≥ anchorDate then
    { start_date := formatDate anchorDate,
      end_date :=
        formatDate (jsMakeDate (getFullYear anchorDate) (getMonth anchorDate + 1) dayOfMonth) }
  else
    { start_date :=
        formatDate (jsMakeDate (getFullYear anchorDate) (getMonth anchorDate - 1) dayOfMonth),
      end_date := formatDate anchorDate }

/-- Model of `calculatePeriodDates` from `src/utils/dateUtils.ts`. -/
def calculatePeriodDates (currentDate : Int) (periodType : PeriodType)
    (anchorDate : Int) : PeriodDates :=
  match periodType with
  | .FIXED_DATE => calculateFixedDatePeriod currentDate anchorDate
  | .INCOME_ANCHORED => calculateIncomeAnchoredPeriod currentDate anchorDate

/-- A civil triple denoting an actual calendar date. -/
def ValidCivil (y m d : Int) : Prop :=
  1 ≤ m ∧ m ≤ 12 ∧ 1 ≤ d ∧ d ≤ daysInMonth y m

instance (y m d : Int) : Decidable (ValidCivil y m d) := by
  unfold ValidCivil; infer_instance


/-! ## The document store and the storage classes

The Google Drive backend is modelled as an in-memory document map per
folder.  `readFile` and `writeFile` have the create-or-replace semantics
of `GoogleDriveClient`. -/

/-- The period documents: `periods/{period_id}.json ↦ PeriodData`. -/
def readFile : List (String × PeriodData) → String → Option PeriodData
  | [], _ => none
  | (p, doc) :: rest, path => if p = path then some doc else readFile rest path

/-- Create-or-replace a period document. -/
def writeFile : List (String × PeriodData) → String → PeriodData → List (String × PeriodData)
  | [], path, doc => [(path, doc)]
  | (p, d) :: rest, path, doc =>
    if p = path then (path, doc) :: rest else (p, d) :: writeFile rest path doc

/-- Model of `getPeriodFilePath` from `src/storage/StorageConfig.ts`. -/
def getPeriodFilePath (period_id : String) : String :=
  "periods/" ++ period_id ++ ".json"

/-- The state of the Google Drive `BudgetingApp` folder. -/
structure Drive where
  userFile : Option User
  accountFiles : List Account
  categoriesFile : Option CategoriesCollection
  periodFiles : List (String × PeriodData)
  deriving Repr, DecidableEq

/-- Model of `UserStorage.getOrCreateUser`; the fresh user that `createUser()` would
mint is passed in explicitly. -/
def getOrCreateUser (drive : Drive) (newUser : User) : User × Drive :=
  match drive.userFile with
  | some existingUser => (existingUser, drive)
  | none => (newUser, { drive with userFile := some newUser })

/-- Model of `AccountStorage.listAllAccounts`: the body is a placeholder in the
source ("TODO: This requires enhancement to track filename->account_id
mapping") and returns the empty accounts array it initialized. -/
def listAllAccounts (_drive : Drive) : List Account :=
  let accounts : List Account := []
  accounts

/-- Model of `AccountStorage.getAccountForUser`: returns null when the accounts
folder is empty, otherwise searches `listAllAccounts` for the user. -/
def getAccountForUser (drive : Drive) (user_id : String) : Option Account :=
  if drive.accountFiles.length = 0 then none
  else
    match (listAllAccounts drive).find? (fun acc => acc.user_id == user_id) with
    | some userAccount => some userAccount
    | none => none

/-- Model of `AccountStorage.createAccount`; the fresh UUID and timestamp that
`createAccount` would mint are passed in explicitly. -/
def createAccount (drive : Drive) (user_id bank_name account_name currency : String)
    (fresh_id now : String) : Account × Drive :=
  let account : Account :=
    { account_id := fresh_id, user_id, bank_name, account_name, currency, created_at := now }
  (account, { drive with accountFiles := drive.accountFiles ++ [account] })

/-- Model of `createCategory` from `src/types/Category.ts` (fresh UUID and timestamp
passed in). -/
def createCategory (user_id name : String) (monthly_limit : ℚ) (is_default : Bool)
    (fresh_id now : String) : Category :=
  { category_id := fresh_id, user_id, name, monthly_limit, is_default,
    created_at := now, archived_at := none }

/-- Model of `createDefaultCategory` from `src/types/Category.ts`. -/
def createDefaultCategory (user_id fresh_id now : String) : Category :=
  createCategory user_id "Other" 0 true fresh_id now

/-- Model of `CategoryStorage.initializeCategories`: unconditionally writes a fresh
single-element collection holding a newly created default category. -/
def initializeCategories (drive : Drive) (user_id fresh_id now : String) :
    List Category × Drive :=
  let defaultCategory := createDefaultCategory user_id fresh_id now
  let collection : CategoriesCollection := { categories := [defaultCategory] }
  (collection.categories, { drive with categoriesFile := some collection })

/-- Model of `PeriodStorage.getPeriod`. -/
def getPeriod (drive : Drive) (period_id : String) : Option PeriodData :=
  readFile drive.periodFiles (getPeriodFilePath period_id)

/-- Model of `PeriodStorage.listAllPeriods`: the body is a placeholder in the source
("TODO: Enhance to read actual period files / For now, this is a
placeholder that demonstrates the logic"): it never reads the listed
period files and sorts the empty array it initialized. -/
def listAllPeriods (_drive : Drive) (_user_id _account_id : String) : List PeriodData :=
  let periods : List PeriodData := []
  periods

/-- Model of `PeriodStorage.getCurrentPeriod`: scans `listAllPeriods` for the period
whose interval contains today (`now` is the clock reading of `new Date()`). -/
def getCurrentPeriod (drive : Drive) (user_id account_id : String) (now : Int) :
    Option PeriodData :=
  let today := formatDate now
  (listAllPeriods drive user_id account_id).find?
    (fun periodData => isDateInPeriod today periodData.period.start_date periodData.period.end_date)

/-- Model of `PeriodStorage.createPeriod` (fresh UUID and timestamp passed in). -/
def createPeriod (drive : Drive) (user_id account_id start_date end_date : String)
    (starting_balance : ℚ) (period_type : PeriodType) (anchor_date : String)
    (fresh_id now : String) : BudgetPeriod × Drive :=
  let period : BudgetPeriod :=
    { period_id := fresh_id, user_id, account_id, start_date, end_date,
      starting_balance, period_type, anchor_date, created_at := now }
  let periodData : PeriodData := { period, transactions := [] }
  (period,
   { drive with periodFiles := writeFile drive.periodFiles (getPeriodFilePath period.period_id) periodData })

/-- Model of `PeriodStorage.createNextPeriod`: computes the bounds from today and
the anchor and persists a fresh period with empty transactions. -/
def createNextPeriod (drive : Drive) (user_id account_id : String)
    (period_type : PeriodType) (anchor_date : String) (current_balance : ℚ)
    (now : Int) (fresh_id nowIso : String) : BudgetPeriod × Drive :=
  let anchorDateObj := parseDate anchor_date
  let dates := calculatePeriodDates now period_type anchorDateObj
  createPeriod drive user_id account_id dates.start_date dates.end_date
    current_balance period_type anchor_date fresh_id nowIso

/-- Model of `PeriodStorage.addTransactions`: reads the period, merges with
de-duplication, validates the uniqueness invariant (throwing before any
write when it fails), then writes the whole document back and returns the
added count.  The returned `Drive` is the store state when the call
finishes or throws. -/
def addTransactions (drive : Drive) (period_id : String)
    (newTransactions : List Transaction) : Drive × Except String Int :=
  match getPeriod drive period_id with
  | none => (drive, .error ("Period " ++ period_id ++ " not found"))
  | some periodData =>
    let mergedTransactions := mergeTransactions periodData.transactions newTransactions
    match validateNoDuplicates mergedTransactions with
    | .error e => (drive, .error e)
    | .ok () =>
      let addedCount : Int := mergedTransactions.length - periodData.transactions.length
      let periodData' := { periodData with transactions := mergedTransactions }
      ({ drive with
          periodFiles := writeFile drive.periodFiles (getPeriodFilePath period_id) periodData' },
       .ok addedCount)

/-- The in-place mutation performed by `updateTransactionCategory` on the
first transaction matching `transaction_id`. -/
def updateFirstTransaction : List Transaction → String → String → String → List Transaction
  | [], _, _, _ => []
  | tx :: rest, transaction_id, new_category_id, now =>
    if tx.transaction_id == transaction_id then
      { tx with category_id := new_category_id, is_manual_override := true,
                updated_at := now } :: rest
    else tx :: updateFirstTransaction rest transaction_id new_category_id now

/-- Model of `PeriodStorage.updateTransactionCategory`: finds the transaction, sets
its category, marks it as a manual override, stamps `updated_at`, and
writes the document back. -/
def updateTransactionCategory (drive : Drive) (period_id transaction_id new_category_id : String)
    (nowIso : String) : Drive × Except String Unit :=
  match getPeriod drive period_id with
  | none => (drive, .error ("Period " ++ period_id ++ " not found"))
  | some periodData =>
    if periodData.transactions.any (fun tx => tx.transaction_id == transaction_id) then
      let periodData' :=
        { periodData with
            transactions :=
              updateFirstTransaction periodData.transactions transaction_id new_category_id nowIso }
      ({ drive with
          periodFiles := writeFile drive.periodFiles (getPeriodFilePath period_id) periodData' },
       .ok ())
    else
      (drive, .error ("Transaction " ++ transaction_id ++ " not found in period " ++ period_id))

/-! ## The setup flow (`app/api/setup/route.ts`) -/

/-- The fresh identities and timestamp a setup run would mint if it
creates entities. -/
structure SetupFresh where
  user : User
  account_id : String
  category_id : String
  period_id : String
  nowIso : String
  deriving Repr, DecidableEq

/-- The data of the JSON response of `POST /api/setup`. -/
structure SetupResult where
  drive : Drive
  user_id : String
  account_id : String
  period_id : Option String
  categories_count : Nat
  deriving Repr, DecidableEq

/-- The `POST /api/setup` flow, after authentication:
1. get or create the user; 2. get or create the account;
3. initialize categories; 4. ensure an active period exists. -/
def setupFlow (drive : Drive) (fresh : SetupFresh) (now : Int) : SetupResult :=
  let (user, drive1) := getOrCreateUser drive fresh.user
  let (account, drive2) :=
    match getAccountForUser drive1 user.user_id with
    | some account => (account, drive1)
    | none =>
      createAccount drive1 user.user_id "Placeholder Bank" "Current Account" "GBP"
        fresh.account_id fresh.nowIso
  let (categories, drive3) := initializeCategories drive2 user.user_id fresh.category_id fresh.nowIso
  let (currentPeriod, drive4) :=
    match getCurrentPeriod drive3 user.user_id account.account_id now with
    | some periodData => (some periodData, drive3)
    | none =>
      let anchorDate := formatDate now
      let (newPeriod, drive') :=
        createNextPeriod drive3 user.user_id account.account_id .FIXED_DATE anchorDate 0
          now fresh.period_id fresh.nowIso
      (getPeriod drive' newPeriod.period_id, drive')
  { drive := drive4, user_id := user.user_id, account_id := account.account_id,
    period_id := currentPeriod.map (fun periodData => periodData.period.period_id),
    categories_count := categories.length }

/-! ## Category spend aggregation
(`PeriodStorage.getCategorySpending` and `app/api/period/active/route.ts`) -/

/-- Model of `PeriodStorage.getTransactions` with a category filter, over the
period's transaction list. -/
def getTransactionsByCategory (transactions : List Transaction) (category_id : String) :
    List Transaction :=
  transactions.filter (fun tx => tx.category_id == category_id)

/-- Model of `PeriodStorage.getCategorySpending`: sum of `Math.abs(amount)` over the
category's transactions with negative amounts. -/
def getCategorySpending (transactions : List Transaction) (category_id : String) : ℚ :=
  ((getTransactionsByCategory transactions category_id).filter
      (fun tx => tx.amount < 0)).foldl (fun sum tx => sum + |tx.amount|) 0

/-- The `CategorySummary` objects built by `GET /api/period/active`. -/
structure CategorySummary where
  category_id : String
  name : String
  monthly_limit : ℚ
  spent : ℚ
  remaining : ℚ
  percentage : Int
  deriving Repr, DecidableEq

/-- Model of `Math.round`: round half toward positive infinity. -/
def jsRound (q : ℚ) : Int := ⌊q + 1 / 2⌋

/-- One entry of the `categorySummaries` array of `GET /api/period/active`. -/
def categorySummaryOf (transactions : List Transaction) (category : Category) :
    CategorySummary :=
  let spent := getCategorySpending transactions category.category_id
  { category_id := category.category_id
    name := category.name
    monthly_limit := category.monthly_limit
    spent := spent
    remaining := max 0 (category.monthly_limit - spent)
    percentage :=
      if category.monthly_limit > 0 then jsRound (spent / category.monthly_limit * 100) else 0 }

/-- The spec's "next month" of a civil year/month. -/
def nextMonthOf (y m : Int) : Int × Int :=
  if m = 12 then (y + 1, 1) else (y, m + 1)

/-- The spec's "last month" of a civil year/month. -/
def prevMonthOf (y m : Int) : Int × Int :=
  if m = 1 then (y - 1, 12) else (y, m - 1)

/-- Decidable equality of call results carrying an error or a value. -/
instance exceptDecEq {ε α : Type} [DecidableEq ε] [DecidableEq α] :
    DecidableEq (Except ε α) := fun a b =>
  match a, b with
  | .error x, .error y =>
    if h : x = y then .isTrue (by rw [h]) else
      .isFalse (by intro hc; injection hc; contradiction)
  | .error _, .ok _ => .isFalse (by intro hc; injection hc)
  | .ok _, .error _ => .isFalse (by intro hc; injection hc)
  | .ok x, .ok y =>
    if h : x = y then .isTrue (by rw [h]) else
      .isFalse (by intro hc; injection hc; contradiction)

/-! ## Concrete data used by the concrete theorems and witnesses -/

/-- Builder for a concrete transaction with default metadata fields. -/
def sampleTx (transaction_id external_id category_id : String) (amount : ℚ) : Transaction :=
  { transaction_id, external_id, account_id := "a1", user_id := "u1", period_id := "p1",
    date := "2024-12-10", amount, merchant_name := "M", description := "D",
    category_id, original_category := none, is_manual_override := false,
    created_at := "ts0", updated_at := "ts0" }

/-- A concrete December 2024 budget period for user `u1`, account `a1`. -/
def samplePeriod : BudgetPeriod :=
  { period_id := "p1", user_id := "u1", account_id := "a1",
    start_date := "2024-12-01", end_date := "2025-01-01", starting_balance := 0,
    period_type := .FIXED_DATE, anchor_date := "2024-12-01", created_at := "ts0" }

/-- A drive holding `samplePeriod` with the given transactions. -/
def periodDrive (transactions : List Transaction) : Drive :=
  { userFile := some { user_id := "u1", created_at := "ts0" },
    accountFiles := [], categoriesFile := none,
    periodFiles := [("periods/p1.json", { period := samplePeriod, transactions })] }

/-- Fresh identities minted by a first setup run. -/
def setupFreshA : SetupFresh :=
  { user := { user_id := "user-1", created_at := "ts-1" }, account_id := "acct-1",
    category_id := "cat-1", period_id := "per-1", nowIso := "ts-1" }

/-- Fresh identities minted by a second setup run. -/
def setupFreshB : SetupFresh :=
  { user := { user_id := "user-2", created_at := "ts-2" }, account_id := "acct-2",
    category_id := "cat-2", period_id := "per-2", nowIso := "ts-2" }

/-- The drive before any setup has run. -/
def emptyDrive : Drive :=
  { userFile := none, accountFiles := [], categoriesFile := none, periodFiles := [] }

/-- The clock reading of both setup runs: 2024-12-20. -/
def setupNow : Int := daysFromCivil 2024 12 20

/-- The state after one successful setup run on the empty drive. -/
def setupOnce : SetupResult := setupFlow emptyDrive setupFreshA setupNow

/-- The state after running the setup flow a second time. -/
def setupTwice : SetupResult := setupFlow setupOnce.drive setupFreshB setupNow

/-- Transactions of C3's witness: `x1` already stored, `x2` new. -/
def c3Existing : List Transaction := [sampleTx "t1" "x1" "c0" (-1)]

/-- Incoming batch of C3's witness: one duplicate of `x1`, one new `x2`. -/
def c3Incoming : List Transaction :=
  [sampleTx "t2" "x1" "c0" (-2), sampleTx "t3" "x2" "c0" (-3)]

/-- The stored, manually recategorized transaction of C5's witness. -/
def c5Tx : Transaction := sampleTx "t1" "x1" "catOther" (-5)

/-- C5's witness re-ingests a batch containing `c5Tx`'s external id. -/
def c5Incoming : List Transaction := [sampleTx "t9" "x1" "catOther" (-5)]

/-- The transaction added by C6's witness. -/
def c6Tx : Transaction := sampleTx "t6" "x6" "c0" (-7)

/-- First element of C10's intra-batch duplicate pair. -/
def c10T1 : Transaction := sampleTx "ta" "dup" "c0" (-1)

/-- Second element of C10's intra-batch duplicate pair: same external id. -/
def c10T2 : Transaction := sampleTx "tb" "dup" "c0" (-2)

/-- The category of C9's concrete spend-aggregation instance: limit 300. -/
def c9Category : Category :=
  { category_id := "cat9", user_id := "u1", name := "C", monthly_limit := 300,
    is_default := false, created_at := "ts0", archived_at := none }

/-- The transactions of C9's concrete instance: −45.50, −12.00, +20.00. -/
def c9Transactions : List Transaction :=
  [sampleTx "t1" "x1" "cat9" (-45.5), sampleTx "t2" "x2" "cat9" (-12),
   sampleTx "t3" "x3" "cat9" 20]

/-! ## Supporting theorems -/

/-- The function `yoeOfDoe` recovers the year-of-era from any day inside it. -/
theorem yoe_recover (yoe doy : Int) (h1 : 0 ≤ yoe) (h2 : yoe ≤ 399)
    (h3 : 0 ≤ doy) (h4 : doy < yearLen yoe) :
    yoeOfDoe (dcount yoe + doy) = yoe := by
  have h4' : doy ≤ 365 := by
    simp only [yearLen, dcount] at h4; split_ifs at h4 <;> omega
  have h6 : (dcount yoe + doy) / 365 = yoe ∨ (dcount yoe + doy) / 365 = yoe + 1 := by
    simp only [dcount]; omega
  simp only [yearLen, dcount] at h4
  simp only [yoeOfDoe, min_def]
  rcases h6 with h6 | h6 <;> rw [h6] <;>
    split_ifs at h4 ⊢ <;> simp only [dcount] at * <;> omega

/-- The function `civilFromDays` splits a day number along its era / year-of-era /
day-of-year decomposition. -/
theorem civilFromDays_decomp (era yoe doy : Int) (h1 : 0 ≤ yoe) (h2 : yoe ≤ 399)
    (h3 : 0 ≤ doy) (h4 : doy < yearLen yoe) :
    civilFromDays (era * 146097 + dcount yoe + doy - 719468) =
      monthDayFromDoy (era * 400 + yoe) doy := by
  have hlt : dcount yoe + doy < 146097 := by
    simp only [yearLen, dcount] at *; split_ifs at h4 <;> omega
  have h0 : 0 ≤ dcount yoe := by simp only [dcount]; omega
  simp only [civilFromDays]
  have h5 : era * 146097 + dcount yoe + doy - 719468 + 719468 =
      146097 * era + (dcount yoe + doy) := by ring
  rw [h5]
  have h6 : (146097 * era + (dcount yoe + doy)) / 146097 = era := by omega
  rw [h6]
  have h7 : 146097 * era + (dcount yoe + doy) - era * 146097 = dcount yoe + doy := by ring
  rw [h7, yoe_recover yoe doy h1 h2 h3 h4]
  have h8 : dcount yoe + doy - dcount yoe = doy := by ring
  rw [h8]

/-- The function `monthDayFromDoy` recovers the month and day a valid civil date was
folded into its day-of-shifted-year from. -/
theorem monthDay_forward (y m d : Int) (hm1 : 1 ≤ m) (hm2 : m ≤ 12)
    (hd1 : 1 ≤ d) (hd2 : d ≤ daysInMonth y m) :
    monthDayFromDoy (if m ≤ 2 then y - 1 else y) (doyOf m d) = (y, m, d) := by
  simp only [daysInMonth, isLeapYear, Bool.or_eq_true, Bool.and_eq_true, beq_iff_eq,
    bne_iff_ne, ne_eq, decide_eq_true_eq] at hd2
  simp only [monthDayFromDoy, doyOf, Prod.mk.injEq]
  interval_cases m <;> norm_num at hd2 ⊢ <;> split_ifs at hd2 ⊢ <;> omega

/-- The civil triple of the day number of a valid civil date is that date. -/
theorem civilFromDays_daysFromCivil (y m d : Int) (h : ValidCivil y m d) :
    civilFromDays (daysFromCivil y m d) = (y, m, d) := by
  obtain ⟨hm1, hm2, hd1, hd2⟩ := h
  obtain ⟨y', hy'⟩ : ∃ y', y' = if m ≤ 2 then y - 1 else y := ⟨_, rfl⟩
  have key : daysFromCivil y m d =
      y' / 400 * 146097 + dcount (y' - y' / 400 * 400) + doyOf m d - 719468 := by
    simp only [daysFromCivil, hy']
  obtain ⟨E, hE1, hE2⟩ : ∃ E : Int, 400 * E ≤ y' ∧ y' < 400 * E + 400 :=
    ⟨y' / 400, by omega, by omega⟩
  have hEeq : y' / 400 = E := by omega
  rw [hEeq] at key
  obtain ⟨yoe, hyoeeq⟩ : ∃ yoe : Int, yoe = y' - E * 400 := ⟨_, rfl⟩
  rw [← hyoeeq] at key
  have hyoe1 : 0 ≤ yoe := by omega
  have hyoe2 : yoe ≤ 399 := by omega
  have hdoy1 : 0 ≤ doyOf m d := by
    simp only [doyOf]; split_ifs <;> omega
  have hdoy2 : doyOf m d < yearLen yoe := by
    simp only [daysInMonth, isLeapYear, Bool.or_eq_true, Bool.and_eq_true, beq_iff_eq,
      bne_iff_ne, ne_eq, decide_eq_true_eq] at hd2
    simp only [doyOf, yearLen, dcount]
    split_ifs at hd2 hy' ⊢ <;> interval_cases m <;> omega
  rw [key, civilFromDays_decomp E yoe (doyOf m d) hyoe1 hyoe2 hdoy1 hdoy2]
  have hyback : E * 400 + yoe = y' := by omega
  rw [hyback, hy']
  exact monthDay_forward y m d hm1 hm2 hd1 hd2

/-- Formatting the day number of a valid civil date yields its ISO string. -/
theorem formatDate_daysFromCivil (y m d : Int) (h : ValidCivil y m d) :
    formatDate (daysFromCivil y m d) = isoDateString y m d := by
  unfold formatDate
  rw [civilFromDays_daysFromCivil y m d h]

/-- For an in-range 0-based month, `new Date(y, m0, d)` is the day number of
the civil date with 1-based month `m0 + 1`. -/
theorem jsMakeDate_of_month_in_range (y m0 d : Int) (h0 : 0 ≤ m0) (h11 : m0 ≤ 11) :
    jsMakeDate y m0 d = daysFromCivil y (m0 + 1) d := by
  unfold jsMakeDate
  rw [show y + m0 / 12 = y by omega, show m0 % 12 + 1 = m0 + 1 by omega]

/-- A call `new Date(y, 12, d)` rolls into January of the following year. -/
theorem jsMakeDate_month_twelve (y d : Int) :
    jsMakeDate y 12 d = daysFromCivil (y + 1) 1 d := by
  unfold jsMakeDate
  rw [show y + (12 : Int) / 12 = y + 1 by omega, show (12 : Int) % 12 + 1 = 1 by omega]

/-- A call `new Date(y, -1, d)` rolls into December of the preceding year. -/
theorem jsMakeDate_month_neg_one (y d : Int) :
    jsMakeDate y (-1) d = daysFromCivil (y - 1) 12 d := by
  unfold jsMakeDate
  rw [show y + (-1 : Int) / 12 = y - 1 by omega, show (-1 : Int) % 12 + 1 = 12 by omega]

/-- Every month has at least 28 days. -/
theorem twentyeight_le_daysInMonth (y m : Int) : 28 ≤ daysInMonth y m := by
  unfold daysInMonth; split_ifs <;> omega

/-- A day of month between 1 and 28 makes a valid civil date in any month. -/
theorem validCivil_of_le_28 (y m d : Int) (hm1 : 1 ≤ m) (hm2 : m ≤ 12)
    (hd1 : 1 ≤ d) (hd2 : d ≤ 28) : ValidCivil y m d :=
  ⟨hm1, hm2, hd1, hd2.trans (twentyeight_le_daysInMonth y m)⟩

/-- A call `new Date(y, m - 1, d)` (0-based month `m - 1`) formats as day `d` of
1-based month `m`. -/
theorem formatDate_jsMakeDate_sameMonth (y m d : Int) (hm1 : 1 ≤ m) (hm2 : m ≤ 12)
    (hd1 : 1 ≤ d) (hd2 : d ≤ daysInMonth y m) :
    formatDate (jsMakeDate y (m - 1) d) = isoDateString y m d := by
  rw [jsMakeDate_of_month_in_range y (m - 1) d (by omega) (by omega),
    show m - 1 + 1 = m by ring,
    formatDate_daysFromCivil y m d ⟨hm1, hm2, hd1, hd2⟩]

/-- A call `new Date(y, m, d)` (0-based month `m`, i.e. one past 1-based month `m`)
formats as day `d` of the next civil month, rolling over December. -/
theorem formatDate_jsMakeDate_nextMonth (y m d : Int) (hm1 : 1 ≤ m) (hm2 : m ≤ 12)
    (hd1 : 1 ≤ d) (hd2 : d ≤ daysInMonth (nextMonthOf y m).1 (nextMonthOf y m).2) :
    formatDate (jsMakeDate y m d) =
      isoDateString (nextMonthOf y m).1 (nextMonthOf y m).2 d := by
  unfold nextMonthOf at hd2 ⊢
  by_cases h : m = 12
  · subst h
    rw [if_pos rfl] at hd2
    rw [jsMakeDate_month_twelve,
      formatDate_daysFromCivil (y + 1) 1 d ⟨by omega, by omega, hd1, hd2⟩]
    simp
  · rw [if_neg h] at hd2
    rw [jsMakeDate_of_month_in_range y m d (by omega) (by omega),
      formatDate_daysFromCivil y (m + 1) d ⟨by omega, by omega, hd1, hd2⟩]
    simp [h]

/-- A call `new Date(y, m - 2, d)` (0-based month `m - 2`, i.e. one before 1-based
month `m`) formats as day `d` of the previous civil month, rolling under
January. -/
theorem formatDate_jsMakeDate_prevMonth (y m d : Int) (hm1 : 1 ≤ m) (hm2 : m ≤ 12)
    (hd1 : 1 ≤ d) (hd2 : d ≤ daysInMonth (prevMonthOf y m).1 (prevMonthOf y m).2) :
    formatDate (jsMakeDate y (m - 2) d) =
      isoDateString (prevMonthOf y m).1 (prevMonthOf y m).2 d := by
  unfold prevMonthOf at hd2 ⊢
  by_cases h : m = 1
  · subst h
    rw [if_pos rfl] at hd2
    rw [show (1 : Int) - 2 = -1 by ring, jsMakeDate_month_neg_one,
      formatDate_daysFromCivil (y - 1) 12 d ⟨by omega, by omega, hd1, hd2⟩]
    simp
  · rw [if_neg h] at hd2
    rw [jsMakeDate_of_month_in_range y (m - 2) d (by omega) (by omega),
      show m - 2 + 1 = m - 1 by ring,
      formatDate_daysFromCivil y (m - 1) d ⟨by omega, by omega, hd1, hd2⟩]
    simp [h]

/-- C7: for every today `(ty, tm, td)` and anchor `(ay, am, ad)` with anchor
day-of-month `d = ad`, if `today.day ≥ d` the FIXED_DATE period is
`[thisMonth:d, nextMonth:d)`, otherwise `[lastMonth:d, thisMonth:d)`
(the start inclusive: equality of today's day with the anchor day takes the
first branch).  The hypothesis `hfits` requires the anchor day to denote an
actual day of last month, this month and next month, the dates the rule
speaks of; an anchor day exceeding a target month's length is the
explicitly flagged overflow edge case treated by C8. -/
theorem claim_C7_fixed_date_period_rule
    (ty tm td ay am ad : Int)
    (htoday : ValidCivil ty tm td) (hanchor : ValidCivil ay am ad)
    (hfits : ad ≤ daysInMonth (prevMonthOf ty tm).1 (prevMonthOf ty tm).2 ∧
      ad ≤ daysInMonth ty tm ∧
      ad ≤ daysInMonth (nextMonthOf ty tm).1 (nextMonthOf ty tm).2) :
    calculateFixedDatePeriod (daysFromCivil ty tm td) (daysFromCivil ay am ad) =
      if ad ≤ td then
        { start_date := isoDateString ty tm ad,
          end_date := isoDateString (nextMonthOf ty tm).1 (nextMonthOf ty tm).2 ad }
      else
        { start_date := isoDateString (prevMonthOf ty tm).1 (prevMonthOf ty tm).2 ad,
          end_date := isoDateString ty tm ad } := by
  obtain ⟨htm1, htm2, htd1, htd2⟩ := htoday
  obtain ⟨ham1, ham2, had1, had2⟩ := hanchor
  have hT := civilFromDays_daysFromCivil ty tm td ⟨htm1, htm2, htd1, htd2⟩
  have hA := civilFromDays_daysFromCivil ay am ad ⟨ham1, ham2, had1, had2⟩
  simp only [calculateFixedDatePeriod, getDate, getMonth, getFullYear, hT, hA, ge_iff_le]
  by_cases h : ad ≤ td
  · simp only [if_pos h]
    rw [show tm - 1 + 1 = tm by ring,
      formatDate_jsMakeDate_sameMonth ty tm ad htm1 htm2 had1 hfits.2.1,
      formatDate_jsMakeDate_nextMonth ty tm ad htm1 htm2 had1 hfits.2.2]
  · simp only [if_neg h]
    rw [show tm - 1 - 1 = tm - 2 by ring,
      formatDate_jsMakeDate_sameMonth ty tm ad htm1 htm2 had1 hfits.2.1,
      formatDate_jsMakeDate_prevMonth ty tm ad htm1 htm2 had1 hfits.1]

/-- C7 witness: the spec's concrete FIXED_DATE instances, obtained from the
general rule.  Anchor 2024-12-01 (day 1), today 2024-12-20 gives
`[2024-12-01, 2025-01-01)`; today 2024-12-01, equal to the anchor day,
gives the same period (inclusive start). -/
theorem claim_C7_witness :
    calculateFixedDatePeriod (daysFromCivil 2024 12 20) (daysFromCivil 2024 12 1) =
      { start_date := "2024-12-01", end_date := "2025-01-01" } ∧
    calculateFixedDatePeriod (daysFromCivil 2024 12 1) (daysFromCivil 2024 12 1) =
      { start_date := "2024-12-01", end_date := "2025-01-01" } := by
  constructor
  · rw [claim_C7_fixed_date_period_rule 2024 12 20 2024 12 1
      (by decide) (by decide) ⟨by decide, by decide, by decide⟩]
    decide
  · rw [claim_C7_fixed_date_period_rule 2024 12 1 2024 12 1
      (by decide) (by decide) ⟨by decide, by decide, by decide⟩]
    decide

theorem readFile_writeFile_same (files : List (String × PeriodData))
    (path : String) (doc : PeriodData) :
    readFile (writeFile files path doc) path = some doc := by
  induction files with
  | nil => simp [writeFile, readFile]
  | cons hd tl ih =>
    obtain ⟨p, d⟩ := hd
    by_cases h : p = path <;> simp [writeFile, readFile, h, ih]

/-- Helper: a left fold adding absolute amounts equals the initial value
plus the sum of the mapped absolute amounts. -/
theorem foldl_add_abs (l : List Transaction) (init : ℚ) :
    l.foldl (fun sum tx => sum + |tx.amount|) init =
      init + (l.map (fun tx => |tx.amount|)).sum := by
  induction l generalizing init with
  | nil => simp
  | cons hd tl ih => simp [ih, add_assoc]

/-- Helper: `find?` looks in the left list first when it succeeds there. -/
theorem find?_append_left {p : Transaction → Bool} (l r : List Transaction)
    (h : (l.find? p).isSome) : (l ++ r).find? p = l.find? p := by
  induction l with
  | nil => simp [List.find?] at h
  | cons hd tl ih =>
    by_cases hp : p hd
    · simp [List.find?, hp]
    · simp only [List.cons_append, List.find?_cons_of_neg _ hp] at *
      exact ih h

/-- Helper: updating the first matching transaction leaves a first match
carrying the new category and the manual-override mark. -/
theorem updateFirstTransaction_find? (transactions : List Transaction)
    (transaction_id new_category_id nowIso : String)
    (h : transactions.any (fun tx => tx.transaction_id == transaction_id) = true) :
    ∃ tx₀,
      (updateFirstTransaction transactions transaction_id new_category_id nowIso).find?
          (fun tx => tx.transaction_id == transaction_id) = some tx₀ ∧
        tx₀.category_id = new_category_id ∧ tx₀.is_manual_override = true := by
  induction transactions with
  | nil => simp at h
  | cons hd tl ih =>
    by_cases hp : (hd.transaction_id == transaction_id) = true
    · exact ⟨{ hd with category_id := new_category_id, is_manual_override := true, updated_at := nowIso }, by simp [updateFirstTransaction, hp, List.find?], rfl, rfl⟩
    · have hfalse : (hd.transaction_id == transaction_id) = false := by
        cases hb : hd.transaction_id == transaction_id
        · rfl
        · exact absurd hb hp
      simp only [List.any_cons, hfalse, Bool.false_or] at h
      obtain ⟨tx₀, hfind, hcat, hov⟩ := ih h
      refine ⟨tx₀, ?_, hcat, hov⟩
      simp only [updateFirstTransaction, hfalse, Bool.false_eq_true, if_false]
      simp only [List.find?, hfalse]
      exact hfind

/-- Helper: `validateNoDuplicates` succeeds exactly when the external ids
are pairwise distinct. -/
theorem validateNoDuplicates_ok_iff (transactions : List Transaction) :
    validateNoDuplicates transactions = .ok () ↔
      (transactions.map (·.external_id)).Nodup := by
  simp only [validateNoDuplicates]
  split_ifs with h
  · simp only [true_iff, iff_true]
    exact List.dedup_eq_self.mp
      (List.Sublist.eq_of_length (List.dedup_sublist _) h.symm)
  · constructor
    · intro hcontra; simp at hcontra
    · intro hnd
      exact absurd (by rw [List.dedup_eq_self.mpr hnd]) h

/-- C3: the merge returns exactly the existing transactions in order,
followed by exactly the incoming transactions whose external id is not
already present, in order; and on success `addTransactions` returns
`addedCount = len(merged) − len(existing)`. -/
theorem claim_C3_merge_shape_and_added_count :
    (∀ existing incoming : List Transaction,
      mergeTransactions existing incoming =
        existing ++ incoming.filter
          (fun tx => decide (tx.external_id ∉ existing.map (·.external_id)))) ∧
    (∀ (drive : Drive) (period_id : String) (batch : List Transaction)
        (periodData : PeriodData) (drive' : Drive) (n : Int),
      getPeriod drive period_id = some periodData →
      addTransactions drive period_id batch = (drive', .ok n) →
      n = (mergeTransactions periodData.transactions batch).length -
          periodData.transactions.length) := by
  constructor
  · intro existing incoming
    simp only [mergeTransactions, filterDuplicates, buildExternalIdSet]
    congr 1
    apply List.filter_congr
    intro tx _
    rw [Bool.eq_iff_iff]
    simp [List.contains, List.elem_iff]
  · intro drive period_id batch periodData drive' n hget hadd
    unfold addTransactions at hadd
    rw [hget] at hadd
    simp only at hadd
    cases hval : validateNoDuplicates (mergeTransactions periodData.transactions batch) with
    | error e => rw [hval] at hadd; simp at hadd
    | ok u =>
      cases u
      rw [hval] at hadd
      simp only [Prod.mk.injEq, Except.ok.injEq] at hadd
      exact hadd.2.symm

/-- C3 witness: with one stored transaction `x1`, merging a batch holding a
duplicate of `x1` and a new `x2` keeps the stored list, appends only `x2`,
and reports one added transaction. -/
theorem claim_C3_witness :
    mergeTransactions c3Existing c3Incoming =
      c3Existing ++ c3Incoming.filter
        (fun tx => decide (tx.external_id ∉ c3Existing.map (·.external_id))) ∧
    (1 : Int) = (mergeTransactions c3Existing c3Incoming).length - c3Existing.length := by
  constructor
  · exact claim_C3_merge_shape_and_added_count.1 c3Existing c3Incoming
  · exact claim_C3_merge_shape_and_added_count.2 (periodDrive c3Existing) "p1" c3Incoming
      { period := samplePeriod, transactions := c3Existing }
      (addTransactions (periodDrive c3Existing) "p1" c3Incoming).1 1
      (by decide) (by decide)

/-- C4: merging a batch into the empty list and re-merging the same batch
into the result adds nothing: the merged list is unchanged and the second
`addedCount`, computed as `len(merged) − len(existing)`, is zero. -/
theorem claim_C4_dedup_idempotent (B : List Transaction) :
    mergeTransactions (mergeTransactions [] B) B = mergeTransactions [] B ∧
    ((mergeTransactions (mergeTransactions [] B) B).length : Int) -
      (mergeTransactions [] B).length = 0 := by
  have h1 : mergeTransactions [] B = B := by
    simp [mergeTransactions, filterDuplicates, buildExternalIdSet]
  have h2 : filterDuplicates B B = [] := by
    simp only [filterDuplicates, buildExternalIdSet, List.filter_eq_nil_iff]
    intro tx htx
    simp [List.contains, List.elem_iff]
    exact ⟨tx, htx, rfl⟩
  rw [h1]
  constructor
  · simp [mergeTransactions, h2]
  · simp [mergeTransactions, h2]

/-- C5: after `updateTransactionCategory` recategorizes a stored
transaction, merging any incoming batch leaves every existing entry
byte-for-byte unchanged (the merge output starts with the existing list
and appends only the surviving incoming transactions), so the transaction
keeps `category_id = new_category_id` and `is_manual_override = true`. -/
theorem claim_C5_manual_override_stability
    (transactions incoming : List Transaction)
    (transaction_id new_category_id nowIso : String)
    (h : transactions.any (fun tx => tx.transaction_id == transaction_id) = true) :
    (mergeTransactions (updateFirstTransaction transactions transaction_id new_category_id nowIso)
        incoming).take
        (updateFirstTransaction transactions transaction_id new_category_id nowIso).length =
      updateFirstTransaction transactions transaction_id new_category_id nowIso ∧
    (mergeTransactions (updateFirstTransaction transactions transaction_id new_category_id nowIso)
        incoming).drop
        (updateFirstTransaction transactions transaction_id new_category_id nowIso).length =
      filterDuplicates incoming
        (updateFirstTransaction transactions transaction_id new_category_id nowIso) ∧
    ((mergeTransactions (updateFirstTransaction transactions transaction_id new_category_id nowIso)
        incoming).find? (fun tx => tx.transaction_id == transaction_id)).map
      (fun tx => (tx.category_id, tx.is_manual_override)) = some (new_category_id, true) := by
  obtain ⟨tx₀, hfind, hcat, hov⟩ :=
    updateFirstTransaction_find? transactions transaction_id new_category_id nowIso h
  refine ⟨?_, ?_, ?_⟩
  · simp only [mergeTransactions]
    exact List.take_left _ _
  · simp only [mergeTransactions]
    exact List.drop_left _ _
  · simp only [mergeTransactions]
    rw [find?_append_left _ _ (by rw [hfind]; rfl), hfind]
    simp [hcat, hov]

/-- C5 witness: a concrete recategorized transaction survives re-ingestion
of a batch carrying its external id with its manual category intact. -/
theorem claim_C5_witness :
    ((mergeTransactions (updateFirstTransaction [c5Tx] "t1" "catX" "ts2") c5Incoming).find?
        (fun tx => tx.transaction_id == "t1")).map
      (fun tx => (tx.category_id, tx.is_manual_override)) = some ("catX", true) :=
  (claim_C5_manual_override_stability [c5Tx] c5Incoming "t1" "catX" "ts2" (by decide)).2.2

/-- C6: on a stored period, `addTransactions` either succeeds and the
stored transaction list has pairwise-distinct external ids, or it raises
and the store is exactly as before the call (the duplicate check runs
before the document write). -/
theorem claim_C6_invariant_and_atomicity (drive : Drive) (period_id : String)
    (batch : List Transaction) (periodData : PeriodData)
    (h : getPeriod drive period_id = some periodData) :
    (∀ (drive' : Drive) (n : Int),
      addTransactions drive period_id batch = (drive', .ok n) →
      ∃ periodData', getPeriod drive' period_id = some periodData' ∧
        (periodData'.transactions.map (·.external_id)).Nodup) ∧
    (∀ (drive' : Drive) (e : String),
      addTransactions drive period_id batch = (drive', .error e) → drive' = drive) := by
  constructor
  · intro drive' n hadd
    unfold addTransactions at hadd
    rw [h] at hadd
    simp only at hadd
    cases hval : validateNoDuplicates (mergeTransactions periodData.transactions batch) with
    | error e => rw [hval] at hadd; simp at hadd
    | ok u =>
      cases u
      rw [hval] at hadd
      simp only [Prod.mk.injEq, Except.ok.injEq] at hadd
      refine ⟨{ periodData with
          transactions := mergeTransactions periodData.transactions batch }, ?_, ?_⟩
      · rw [← hadd.1]
        unfold getPeriod
        exact readFile_writeFile_same _ _ _
      · exact (validateNoDuplicates_ok_iff _).mp hval
  · intro drive' e hadd
    unfold addTransactions at hadd
    rw [h] at hadd
    simp only at hadd
    cases hval : validateNoDuplicates (mergeTransactions periodData.transactions batch) with
    | error e' =>
      rw [hval] at hadd
      simp only [Prod.mk.injEq] at hadd
      exact hadd.1.symm
    | ok u =>
      cases u
      rw [hval] at hadd
      simp at hadd

/-- C6 witness: adding one transaction to the stored empty period succeeds
and the stored list has pairwise-distinct external ids. -/
theorem claim_C6_witness :
    ∃ periodData',
      getPeriod (addTransactions (periodDrive []) "p1" [c6Tx]).1 "p1" = some periodData' ∧
        (periodData'.transactions.map (·.external_id)).Nodup :=
  (claim_C6_invariant_and_atomicity (periodDrive []) "p1" [c6Tx]
      { period := samplePeriod, transactions := [] } (by decide)).1
    (addTransactions (periodDrive []) "p1" [c6Tx]).1 1 (by decide)

/-- C10: duplicates inside a single incoming batch are not filtered
against each other: with a duplicate-free (empty) stored period,
`filterDuplicates` keeps both transactions sharing external id `dup`,
the merged list carries `dup` twice, and `addTransactions` raises the
duplicate-external-id error leaving the store unchanged. -/
theorem claim_C10_intra_batch_duplicates :
    (∀ file ∈ (periodDrive []).periodFiles,
        (file.2.transactions.map (·.external_id)).Nodup) ∧
    filterDuplicates [c10T1, c10T2] [] = [c10T1, c10T2] ∧
    (mergeTransactions [] [c10T1, c10T2]).map (·.external_id) = ["dup", "dup"] ∧
    addTransactions (periodDrive []) "p1" [c10T1, c10T2] =
      (periodDrive [], .error "Duplicate external_ids found in transactions: dup") := by
  refine ⟨?_, by decide, by decide, by decide⟩
  decide

/-- C8 counterexample: the code applies no clamping rule.  With anchor day
31 and today 2025-01-31 the FIXED_DATE end bound is built as
`new Date(2025, 1, 31)` (February 31st): a clamping rule such as the
claim's example would keep the bound inside the target month (February,
at latest `2025-02-28`), but the computed bound is `2025-03-03`, which
lies in March. -/
theorem claim_C8_counterexample :
    calculatePeriodDates (daysFromCivil 2025 1 31) .FIXED_DATE (daysFromCivil 2025 1 31) =
      { start_date := "2025-01-31", end_date := "2025-03-03" } ∧
    (civilFromDays (parseDate "2025-03-03")).2.1 = 3 ∧
    "2025-03-03" ≠ "2025-02-28" := by
  refine ⟨by decide, by decide, by decide⟩

/-- C8 amended: when the anchor day-of-month exceeds the length of the
target month, `calculatePeriodDates` does not clamp; the ECMAScript
`Date(year, month, day)` arithmetic rolls the overflowing bound into the
following month by the excess (the constructor is affine in the day), and
this same rollover is applied by both the FIXED_DATE and the
INCOME_ANCHORED computation: day 31 against February 2025 yields
2025-03-03 in both. -/
theorem claim_C8_amended_rollover :
    (∀ y m0 d : Int, jsMakeDate y m0 d = jsMakeDate y m0 1 + (d - 1)) ∧
    calculatePeriodDates (daysFromCivil 2025 1 31) .FIXED_DATE (daysFromCivil 2025 1 31) =
      { start_date := "2025-01-31", end_date := "2025-03-03" } ∧
    calculatePeriodDates (daysFromCivil 2025 2 5) .INCOME_ANCHORED (daysFromCivil 2025 1 31) =
      { start_date := "2025-01-31", end_date := "2025-03-03" } ∧
    daysFromCivil 2025 2 31 = daysFromCivil 2025 3 3 := by
  refine ⟨?_, by decide, by decide, by decide⟩
  intro y m0 d
  simp only [jsMakeDate, daysFromCivil, doyOf]
  ring

/-- C9: for every transaction list and category, `spent` is the sum of the
absolute amounts of that category's negative-amount transactions (incomes
excluded), `remaining = max(0, monthly_limit − spent)`, and `percentage`
is `round(spent / monthly_limit · 100)` when the limit is positive and 0
otherwise; on limit 300 with amounts −45.50, −12.00, +20.00 this gives
spent 57.50, remaining 242.50, percentage 19. -/
theorem claim_C9_spend_aggregation :
    (∀ (transactions : List Transaction) (category : Category),
      (categorySummaryOf transactions category).spent =
        ((transactions.filter (fun tx =>
            tx.category_id == category.category_id && decide (tx.amount < 0))).map
          (fun tx => |tx.amount|)).sum ∧
      (categorySummaryOf transactions category).remaining =
        max 0 (category.monthly_limit - (categorySummaryOf transactions category).spent) ∧
      (categorySummaryOf transactions category).percentage =
        (if 0 < category.monthly_limit then
          ⌊(categorySummaryOf transactions category).spent / category.monthly_limit * 100 + 1 / 2⌋
         else 0)) ∧
    (categorySummaryOf c9Transactions c9Category).spent = 57.5 ∧
    (categorySummaryOf c9Transactions c9Category).remaining = 242.5 ∧
    (categorySummaryOf c9Transactions c9Category).percentage = 19 := by
  have habs1 : |(-45.5 : ℚ)| = 45.5 := by rw [abs_of_nonpos] <;> norm_num
  have habs2 : |(-12 : ℚ)| = 12 := by rw [abs_of_nonpos] <;> norm_num
  have hspent : getCategorySpending c9Transactions c9Category.category_id = 57.5 := by
    simp only [getCategorySpending, getTransactionsByCategory, c9Transactions, c9Category,
      sampleTx]
    norm_num [List.filter, List.foldl, habs1, habs2]
    rw [abs_of_nonneg (by norm_num : (0 : ℚ) ≤ 91 / 2)]
    norm_num
  refine ⟨fun transactions category => ⟨?_, rfl, rfl⟩, ?_, ?_, ?_⟩
  · simp only [categorySummaryOf, getCategorySpending, getTransactionsByCategory,
      List.filter_filter, foldl_add_abs, zero_add]
    congr 1
    congr 1
    apply List.filter_congr
    intro tx _
    exact Bool.and_comm _ _
  · exact hspent
  · simp only [categorySummaryOf, c9Category] at hspent ⊢
    rw [hspent]
    norm_num [max_def]
  · simp only [categorySummaryOf, c9Category, jsRound] at hspent ⊢
    rw [hspent, if_pos (by norm_num : (300 : ℚ) > 0)]
    rw [Int.floor_eq_iff]
    constructor <;> norm_num

/-- C2: `getCurrentPeriod` never finds the stored period containing today:
`listAllPeriods` is a placeholder returning the empty array, so with one
persisted period `[2024-12-01, 2025-01-01)` and today 2024-12-20 — a date
the period's interval contains, and a period document `getPeriod` can read
— `getCurrentPeriod` still returns absent. -/
theorem claim_C2_get_current_period_always_absent :
    isDateInPeriod (formatDate (daysFromCivil 2024 12 20))
        samplePeriod.start_date samplePeriod.end_date = true ∧
    getPeriod (periodDrive []) "p1" = some { period := samplePeriod, transactions := [] } ∧
    listAllPeriods (periodDrive []) "u1" "a1" = [] ∧
    getCurrentPeriod (periodDrive []) "u1" "a1" (daysFromCivil 2024 12 20) = none := by
  refine ⟨by decide, by decide, by decide, by decide⟩

/-- C1: the setup flow is not idempotent.  Starting from the empty drive,
one run creates one user, one account, one default category and one
period; a second run with the same clock reuses the user but creates a
second account file (`getAccountForUser` searches the placeholder
`listAllAccounts`, which returns the empty array), replaces the categories
collection with a freshly minted default category, and creates a second
period whose interval also contains today (`getCurrentPeriod` consults the
placeholder `listAllPeriods`). -/
theorem claim_C1_setup_not_idempotent :
    setupOnce.drive.userFile = some setupFreshA.user ∧
    setupTwice.drive.userFile = some setupFreshA.user ∧
    setupOnce.drive.accountFiles.length = 1 ∧
    setupTwice.drive.accountFiles.length = 2 ∧
    setupOnce.drive.periodFiles.length = 1 ∧
    setupTwice.drive.periodFiles.length = 2 ∧
    (setupTwice.drive.periodFiles.filter (fun file =>
        isDateInPeriod (formatDate setupNow) file.2.period.start_date
          file.2.period.end_date)).length = 2 ∧
    setupOnce.drive.categoriesFile =
      some { categories := [createDefaultCategory "user-1" "cat-1" "ts-1"] } ∧
    setupTwice.drive.categoriesFile =
      some { categories := [createDefaultCategory "user-1" "cat-2" "ts-2"] } := by
  refine ⟨by decide, by decide, by decide, by decide, by decide, by decide, by decide,
    by decide, by decide⟩

end AutomatedBudget
